import Mathlib

/-!
Verification of the course-agent pipeline: a shallow embedding of the
Course document model (src/models/course.py), the JSON repair routine
(src/utils/json_cleaner.py) and the agent steps (src/agents/*.py),
together with theorems settling the specified behavioural claims.

Python strings are modelled as Lean `String` / `List Char`; Python dicts
as insertion-ordered association lists with last-write-wins update;
Python exceptions as `Except`; JSON values as an inductive type with a
parser modelling the stdlib `json.loads` (strict mode).
-/

set_option autoImplicit false

namespace CourseAgent

/-! ## Delimiter characters, defined by code point

Quote, backslash, brace and backtick characters are defined numerically once
here and referred to by name throughout, keeping the parser and repair
definitions free of escape-heavy literals. -/

def btick : Char := Char.ofNat 96
def dquote : Char := Char.ofNat 34
def squote : Char := Char.ofNat 39
def bslash : Char := Char.ofNat 92
def obrace : Char := Char.ofNat 123
def cbrace : Char := Char.ofNat 125

/-! ## Python string helpers -/

/-- The characters Python's `str.strip()` and `str.split()` treat as whitespace. -/
def pyWsChars : List Char := [' ', '\t', '\n', '\r', '\x0b', '\x0c']

def isPyWs (c : Char) : Bool := pyWsChars.contains c

/-- Python `str.strip()` on a character list. -/
def pyStripChars (cs : List Char) : List Char :=
  ((cs.dropWhile isPyWs).reverse.dropWhile isPyWs).reverse

/-- Python `str.strip()`. -/
def pyStrip (s : String) : String := ⟨pyStripChars s.data⟩

/-- Split on a separator character, keeping empty segments (Python `str.split(sep)`). -/
def splitOnCharAux (sep : Char) : List Char → List Char → List (List Char)
  | [], acc => [acc.reverse]
  | c :: rest, acc =>
    if c = sep then acc.reverse :: splitOnCharAux sep rest []
    else splitOnCharAux sep rest (c :: acc)

def splitOnChar (sep : Char) (cs : List Char) : List (List Char) :=
  splitOnCharAux sep cs []

/-- Whitespace-split discarding empty tokens (Python `str.split()` with no argument). -/
def splitWsAux : List Char → List Char → List (List Char)
  | [], acc => if acc.isEmpty then [] else [acc.reverse]
  | c :: rest, acc =>
    if isPyWs c then
      if acc.isEmpty then splitWsAux rest [] else acc.reverse :: splitWsAux rest []
    else splitWsAux rest (c :: acc)

def pySplitWs (s : String) : List (List Char) := splitWsAux s.data []

def isPyDigit (c : Char) : Bool :=
  ['0', '1', '2', '3', '4', '5', '6', '7', '8', '9'].contains c

def digitVal (c : Char) : Nat := c.toNat - 48

def digitsVal (cs : List Char) : Nat := cs.foldl (fun a c => 10 * a + digitVal c) 0

/-- Python `int(s)` on a decimal string: optional surrounding whitespace, an
optional sign, then decimal digits.  (Digit-grouping underscores and non-ASCII
digits accepted by CPython are not modelled.) -/
def pyIntParseChars : List Char → Option Int
  | [] => none
  | c :: ds =>
    if c = '+' then
      if ds.isEmpty ∨ ¬ ds.all isPyDigit then none else some (digitsVal ds)
    else if c = '-' then
      if ds.isEmpty ∨ ¬ ds.all isPyDigit then none else some (-(digitsVal ds : Int))
    else
      if ¬ (c :: ds).all isPyDigit then none else some (digitsVal (c :: ds))

def pyIntParse (s : String) : Option Int := pyIntParseChars (pyStripChars s.data)

/-- Python `s[:n]` on a character list, allowing a negative bound. -/
def pySliceTo {α : Type} (xs : List α) (n : Int) : List α :=
  if 0 ≤ n then xs.take n.toNat else xs.take (xs.length - (-n).toNat)

/-- Python `s[:n]` on a string with a nonnegative bound. -/
def pyTakeStr (s : String) (n : Nat) : String := ⟨s.data.take n⟩

/-- Python `s.lstrip(c)` for a single strip character. -/
def pyLstripChar (c : Char) (s : String) : String := ⟨s.data.dropWhile (· = c)⟩

/-- Python `sep.join(xs)`. -/
def pyJoin (sep : String) (xs : List String) : String :=
  ⟨List.intercalate sep.data (xs.map String.data)⟩

/-! ## Python dicts: insertion-ordered association lists -/

/-- First-match lookup (keys are unique by construction of `dictSet`). -/
def dictFind {β : Type} : List (String × β) → String → Option β
  | [], _ => none
  | (k', v) :: rest, k => if k' = k then some v else dictFind rest k

/-- Python `d[k] = v`: replace in place if present, else append. -/
def dictSet {β : Type} : List (String × β) → String → β → List (String × β)
  | [], k, v => [(k, v)]
  | (k', v') :: rest, k, v =>
    if k' = k then (k', v) :: rest else (k', v') :: dictSet rest k v

/-- Python `d.get(k, default)`. -/
def dictGetD {β : Type} (xs : List (String × β)) (k : String) (d : β) : β :=
  (dictFind xs k).getD d

def dictHas {β : Type} (xs : List (String × β)) (k : String) : Bool :=
  (dictFind xs k).isSome

/-! ## JSON values and a model of `json.loads` -/

/-- JSON values.  Integral numbers are carried exactly; non-integral numeric
tokens (with a fraction or exponent, or the `NaN`/`Infinity` constants) are
carried as their raw lexeme. -/
inductive Json where
  | null
  | bool (b : Bool)
  | num (n : Int)
  | fnum (raw : String)
  | str (s : String)
  | arr (elems : List Json)
  | obj (members : List (String × Json))

def isJsonWs (c : Char) : Bool := [' ', '\t', '\n', '\r'].contains c

def skipWs (cs : List Char) : List Char := cs.dropWhile isJsonWs

def hexVal? (c : Char) : Option Nat :=
  if isPyDigit c then some (digitVal c)
  else if ['a', 'b', 'c', 'd', 'e', 'f'].contains c then some (c.toNat - 87)
  else if ['A', 'B', 'C', 'D', 'E', 'F'].contains c then some (c.toNat - 55)
  else none

/-- Body of a JSON string after the opening quote: returns the decoded
characters and the remaining input after the closing quote.  Strict mode:
unescaped control characters are rejected.  A lone `\uXXXX` code unit is
mapped through `Char.ofNat` (surrogate pairing is not modelled). -/
def parseStringBody : Nat → List Char → Option (List Char × List Char)
  | 0, _ => none
  | _, [] => none
  | fuel + 1, c :: rest =>
    if c = dquote then some ([], rest)
    else if c = bslash then
      match rest with
      | [] => none
      | e :: rest2 =>
        let simple : Option Char :=
          if e = dquote then some dquote
          else if e = bslash then some bslash
          else if e = '/' then some '/'
          else if e = 'b' then some (Char.ofNat 8)
          else if e = 'f' then some (Char.ofNat 12)
          else if e = 'n' then some '\n'
          else if e = 'r' then some '\r'
          else if e = 't' then some '\t'
          else none
        match simple with
        | some ch =>
          (parseStringBody fuel rest2).map (fun p => (ch :: p.1, p.2))
        | none =>
          if e = 'u' then
            match rest2 with
            | h1 :: h2 :: h3 :: h4 :: rest3 =>
              match hexVal? h1, hexVal? h2, hexVal? h3, hexVal? h4 with
              | some a, some b, some c3, some d =>
                (parseStringBody fuel rest3).map
                  (fun p => (Char.ofNat (((a * 16 + b) * 16 + c3) * 16 + d) :: p.1, p.2))
              | _, _, _, _ => none
            | _ => none
          else none
    else if c.toNat < 32 then none
    else (parseStringBody fuel rest).map (fun p => (c :: p.1, p.2))

/-- The number token of the stdlib scanner: `-?(0|[1-9][0-9]*)(\.[0-9]+)?([eE][+-]?[0-9]+)?`.
Optional groups that fail to match are simply not consumed. -/
def parseNumber (cs : List Char) : Option (Json × List Char) :=
  let signed : Bool := match cs with | '-' :: _ => true | _ => false
  let cs1 := if signed then cs.drop 1 else cs
  match cs1 with
  | [] => none
  | d :: _ =>
    if ¬ isPyDigit d then none
    else
      let ip := if d = '0' then ['0'] else cs1.takeWhile isPyDigit
      let rest1 := if d = '0' then cs1.drop 1 else cs1.dropWhile isPyDigit
      let fracPair : List Char × List Char :=
        match rest1 with
        | '.' :: r2 =>
          let fd := r2.takeWhile isPyDigit
          if fd.isEmpty then ([], rest1) else ('.' :: fd, r2.dropWhile isPyDigit)
        | _ => ([], rest1)
      let frac := fracPair.1
      let rest2 := fracPair.2
      let expPair : List Char × List Char :=
        match rest2 with
        | e :: r3 =>
          if e = 'e' ∨ e = 'E' then
            let (sgn, r4) := match r3 with
              | s :: r4 => if s = '+' ∨ s = '-' then ([s], r4) else ([], r3)
              | [] => ([], r3)
            let ed := r4.takeWhile isPyDigit
            if ed.isEmpty then ([], rest2)
            else (e :: (sgn ++ ed), r4.dropWhile isPyDigit)
          else ([], rest2)
        | [] => ([], rest2)
      let ex := expPair.1
      let rest3 := expPair.2
      let lexeme := (if signed then ['-'] else []) ++ ip ++ frac ++ ex
      if frac.isEmpty ∧ ex.isEmpty then
        let v : Int := if signed then -(digitsVal ip : Int) else (digitsVal ip : Int)
        some (.num v, rest3)
      else some (.fnum ⟨lexeme⟩, rest3)

mutual

/-- Model of the stdlib JSON scanner: parse one value from the input. -/
def parseVal : Nat → List Char → Option (Json × List Char)
  | 0, _ => none
  | fuel + 1, cs =>
    match skipWs cs with
    | [] => none
    | c :: rest =>
      if c = obrace then
        match skipWs rest with
        | c2 :: r2 =>
          if c2 = cbrace then some (.obj [], r2)
          else parseMembers fuel (c2 :: r2) []
        | [] => none
      else if c = '[' then
        match skipWs rest with
        | c2 :: r2 =>
          if c2 = ']' then some (.arr [], r2)
          else parseElems fuel (c2 :: r2) []
        | [] => none
      else if c = dquote then
        (parseStringBody (rest.length + 1) rest).map (fun p => (.str ⟨p.1⟩, p.2))
      else if ['t', 'r', 'u', 'e'].isPrefixOf (c :: rest) then
        some (.bool true, (c :: rest).drop 4)
      else if ['f', 'a', 'l', 's', 'e'].isPrefixOf (c :: rest) then
        some (.bool false, (c :: rest).drop 5)
      else if ['n', 'u', 'l', 'l'].isPrefixOf (c :: rest) then
        some (.null, (c :: rest).drop 4)
      else if ['N', 'a', 'N'].isPrefixOf (c :: rest) then
        some (.fnum "NaN", (c :: rest).drop 3)
      else if ['I', 'n', 'f', 'i', 'n', 'i', 't', 'y'].isPrefixOf (c :: rest) then
        some (.fnum "Infinity", (c :: rest).drop 8)
      else if ['-', 'I', 'n', 'f', 'i', 'n', 'i', 't', 'y'].isPrefixOf (c :: rest) then
        some (.fnum "-Infinity", (c :: rest).drop 9)
      else parseNumber (c :: rest)

/-- Members of an object after the opening brace (first member's first char is
at the head).  Duplicate keys follow Python dict semantics: last value wins. -/
def parseMembers : Nat → List Char → List (String × Json) → Option (Json × List Char)
  | 0, _, _ => none
  | fuel + 1, cs, acc =>
    match cs with
    | k0 :: kr =>
      if k0 = dquote then
        match parseStringBody (kr.length + 1) kr with
        | some (key, r1) =>
          match skipWs r1 with
          | ':' :: r2 =>
            match parseVal fuel r2 with
            | some (v, r3) =>
              let acc2 := dictSet acc ⟨key⟩ v
              match skipWs r3 with
              | ',' :: r4 =>
                match skipWs r4 with
                | [] => none
                | c5 :: r5 => parseMembers fuel (c5 :: r5) acc2
              | c4 :: r4 => if c4 = cbrace then some (.obj acc2, r4) else none
              | [] => none
            | none => none
          | _ => none
        | none => none
      else none
    | [] => none

/-- Elements of an array after the opening bracket. -/
def parseElems : Nat → List Char → List Json → Option (Json × List Char)
  | 0, _, _ => none
  | fuel + 1, cs, acc =>
    match parseVal fuel cs with
    | some (v, r1) =>
      match skipWs r1 with
      | ',' :: r2 => parseElems fuel r2 (acc ++ [v])
      | c2 :: r2 => if c2 = ']' then some (.arr (acc ++ [v]), r2) else none
      | [] => none
    | none => none

end

/-- Model of `json.loads`: parse a single JSON document; trailing non-space
input is an error ("Extra data"). -/
def jsonLoads (s : String) : Option Json :=
  match parseVal (2 * s.data.length + 8) s.data with
  | some (v, rest) => if (skipWs rest).isEmpty then some v else none
  | none => none

/-! ## Text Repair: `clean_json_string` (src/utils/json_cleaner.py) -/

/-- Remove `pre` once from the front of every line (the effect of
`re.sub(r'^<pre>', '', s, flags=re.MULTILINE)` for a literal anchored pattern). -/
def removeLinePre (pre : List Char) (cs : List Char) : List Char :=
  List.intercalate ['\n']
    ((splitOnChar '\n' cs).map (fun line =>
      if pre.isPrefixOf line then line.drop pre.length else line))

/-- Remove `suf` once from the end of every line (the effect of
`re.sub(r'<suf>$', '', s, flags=re.MULTILINE)` for a literal pattern). -/
def removeLineSuf (suf : List Char) (cs : List Char) : List Char :=
  List.intercalate ['\n']
    ((splitOnChar '\n' cs).map (fun line =>
      if suf.reverse.isPrefixOf line.reverse then line.take (line.length - suf.length)
      else line))

def fenceJson : List Char := [btick, btick, btick, 'j', 's', 'o', 'n']

def fence : List Char := [btick, btick, btick]

/-- The three `re.sub` passes of `clean_json_string`, in source order. -/
def stripCodeFences (cs : List Char) : List Char :=
  removeLineSuf fence (removeLinePre fence (removeLinePre fenceJson cs))

/-- The single-quote repair pass: walk the characters tracking whether the
position is inside a double-quoted span (a double quote not immediately
preceded by a backslash in the ORIGINAL string toggles the state); outside
such spans every single quote becomes a double quote.  `prev` is the previous
original character (`none` at position 0). -/
def quoteFixAux : Option Char → Bool → List Char → List Char
  | _, _, [] => []
  | prev, ins, c :: rest =>
    let ins2 := if c = dquote ∧ prev ≠ some bslash then !ins else ins
    let c2 := if c = squote ∧ ins2 = false then dquote else c
    c2 :: quoteFixAux (some c) ins2 rest

def quoteFix (cs : List Char) : List Char := quoteFixAux none false cs

/-- The effect of `re.search(r'({[\s\S]*})', s)`: the span from the first
opening brace to the last closing brace of the whole string, provided that
closing brace lies strictly after the opening one. -/
def braceSpan (cs : List Char) : Option (List Char) :=
  match cs.findIdx? (fun c => c = obrace) with
  | none => none
  | some i =>
    match cs.reverse.findIdx? (fun c => c = cbrace) with
    | none => none
    | some jr =>
      let j := cs.length - 1 - jr
      if i < j then some ((cs.take (j + 1)).drop i) else none

/-- The stdlib `json.JSONDecodeError(msg, doc, pos)`. -/
structure JSONDecodeError where
  msg : String
  doc : String
  pos : Nat
deriving DecidableEq

/-- Rendering `str(e)` for a `JSONDecodeError` raised at position 0: CPython renders
`"<msg>: line 1 column 1 (char 0)"`. -/
def strJSONDecodeError (e : JSONDecodeError) : String :=
  e.msg ++ ": line 1 column 1 (char 0)"

/-- Model of `clean_json_string` (src/utils/json_cleaner.py): strip code fences and
whitespace, then try a direct parse, the single-quote repair, and the
brace-span extraction, in order; if all fail, raise a `JSONDecodeError`
carrying the fence-stripped, whitespace-trimmed text. -/
def clean_json_string (s : String) : Except JSONDecodeError Json :=
  let t := pyStrip ⟨stripCodeFences s.data⟩
  match jsonLoads t with
  | some v => .ok v
  | none =>
    match jsonLoads ⟨quoteFix t.data⟩ with
    | some v => .ok v
    | none =>
      let attempt3 : Option Json :=
        match braceSpan t.data with
        | some span => jsonLoads ⟨span⟩
        | none => none
      match attempt3 with
      | some v => .ok v
      | none => .error ⟨"Could not parse JSON after cleaning", t, 0⟩

/-! ## Json field access (Python duck-typed reads, typed model)

The Python code reads fields out of untyped dicts with `.get(key, default)`
and then uses them at a fixed type.  The embedding types the model fields per
the source's annotations; `asStr` / `asArr` / `asStrList` coerce a `Json`
value to that type, defaulting on mismatch. -/

def jGet (j : Json) (k : String) : Option Json :=
  match j with
  | .obj kvs => dictFind kvs k
  | _ => none

def jGetD (j : Json) (k : String) (d : Json) : Json := (jGet j k).getD d

def asStr (j : Json) : String :=
  match j with
  | .str s => s
  | _ => ""

def asArr (j : Json) : List Json :=
  match j with
  | .arr xs => xs
  | _ => []

def asStrList (j : Json) : List String := (asArr j).map asStr

/-! ## The Course document model (src/models/course.py) -/

/-- Model of a stdlib `datetime.datetime` value: identified with its
`isoformat()` string.  `isoformat` is injective on datetimes and
`fromisoformat` inverts it on its image, which is all the round-trip uses;
validity checking of arbitrary strings is not modelled. -/
structure PyDateTime where
  iso : String
deriving DecidableEq

def fromisoformat? (s : String) : Option PyDateTime := some ⟨s⟩

/-- A single lesson in a course module. -/
structure Lesson where
  title : String
  description : String
  content : String
  resources : List String
deriving DecidableEq

def Lesson.to_dict (l : Lesson) : Json :=
  .obj [("title", .str l.title),
        ("description", .str l.description),
        ("content", .str l.content),
        ("resources", .arr (l.resources.map .str))]

def Lesson.from_dict (data : Json) : Lesson :=
  { title := asStr (jGetD data "title" (.str ""))
    description := asStr (jGetD data "description" (.str ""))
    content := asStr (jGetD data "content" (.str ""))
    resources := asStrList (jGetD data "resources" (.arr [])) }

/-- A module in a course. -/
structure Module where
  title : String
  description : String
  lessons : List Lesson
  duration : String
deriving DecidableEq

def Module.to_dict (m : Module) : Json :=
  .obj [("title", .str m.title),
        ("description", .str m.description),
        ("lessons", .arr (m.lessons.map Lesson.to_dict)),
        ("duration", .str m.duration)]

/-- Model of `Module.from_dict`: build the module, then append each lesson via
`add_lesson` (a fold that is a `map` from the empty list). -/
def Module.from_dict (data : Json) : Module :=
  { title := asStr (jGetD data "title" (.str ""))
    description := asStr (jGetD data "description" (.str ""))
    duration := asStr (jGetD data "duration" (.str "1 week"))
    lessons := (asArr (jGetD data "lessons" (.arr []))).map Lesson.from_dict }

/-- A complete educational course. -/
structure Course where
  title : String
  description : String
  topic : String
  depth : String
  course_duration : String
  modules : List Module
  references : List String
  created_at : PyDateTime
  updated_at : PyDateTime
  validation_results : Json

def Course.to_dict (c : Course) : Json :=
  .obj [("title", .str c.title),
        ("description", .str c.description),
        ("topic", .str c.topic),
        ("depth", .str c.depth),
        ("course_duration", .str c.course_duration),
        ("modules", .arr (c.modules.map Module.to_dict)),
        ("references", .arr (c.references.map .str)),
        ("created_at", .str c.created_at.iso),
        ("updated_at", .str c.updated_at.iso),
        ("validation_results", c.validation_results)]

/-- Model of `Course.from_dict`.  `now` models the `datetime.now()` default taken by
the constructor when a timestamp is absent or fails to parse (a `TypeError`
on a non-string timestamp value is caught and likewise leaves the default). -/
def Course.from_dict (now : PyDateTime) (data : Json) : Course :=
  { title := asStr (match jGet data "title" with
      | some v => v
      | none => jGetD data "course_title" (.str ""))
    description := asStr (jGetD data "description" (.str ""))
    topic := asStr (jGetD data "topic" (.str ""))
    depth := asStr (jGetD data "depth" (.str "intermediate"))
    course_duration := asStr (jGetD data "course_duration" (.str "6 weeks"))
    references := asStrList (jGetD data "references" (.arr []))
    created_at := match jGet data "created_at" with
      | some (.str s) => (fromisoformat? s).getD now
      | some _ => now
      | none => now
    updated_at := match jGet data "updated_at" with
      | some (.str s) => (fromisoformat? s).getD now
      | some _ => now
      | none => now
    validation_results := match jGet data "validation_results" with
      | some v => v
      | none => .obj []
    modules := (asArr (jGetD data "modules" (.arr []))).map Module.from_dict }

/-- Model of `int(self.course_duration.split()[0])`, with `IndexError` (empty split)
and `ValueError` (non-numeric token) folded into `none`. -/
def pyDurationWeeks? (s : String) : Option Int :=
  match pySplitWs s with
  | [] => none
  | t :: _ => pyIntParse ⟨t⟩

def Course.get_duration_in_weeks (c : Course) : Int :=
  (pyDurationWeeks? c.course_duration).getD (c.modules.length : Int)

/-- The module appended by the padding loop: `Module(f"Module {i+1}", "Content
to be developed")` with the constructor defaults for lessons and duration. -/
def placeholderModule (i : Nat) : Module :=
  ⟨"Module " ++ toString (i + 1), "Content to be developed", [], "1 week"⟩

def Course.adjust_modules_to_duration (c : Course) : Course :=
  let num_weeks := c.get_duration_in_weeks
  let padding := (List.range' c.modules.length (num_weeks.toNat - c.modules.length)).map placeholderModule
  if (c.modules.length : Int) > num_weeks then
    { c with modules := pySliceTo c.modules num_weeks }
  else if (c.modules.length : Int) < num_weeks then
    { c with modules := c.modules ++ padding }
  else c

/-! ## The Workflow Executor (src/agents/coordinator.py)

Agents are registered in a dict from name to agent; an agent's `process`
is modelled as a function on the field-set type `V`.  The loop of
`CoordinatorAgent.process` is embedded with an explicit invocation log
recording each call to `agent.process`, so that "which steps ran" is a
provable fact.  The Python return value `{"course": current_input,
"process_results": results}` is the pair in the `.ok` case. -/

def coordStep {V : Type} (agents : List (String × (V → V))) :
    List String → V → List (String × V) → List String →
    List String × Except String (V × List (String × V))
  | [], cur, results, log => (log, .ok (cur, results))
  | name :: rest, cur, results, log =>
    match dictFind agents name with
    | none => (log, .error ("Agent " ++ name ++ " not found in registered agents"))
    | some f =>
      let out := f cur
      coordStep agents rest out (dictSet results name out) (log ++ [name])

def coordinatorProcess {V : Type} (agents : List (String × (V → V)))
    (workflow : List String) (inputs : V) :
    List String × Except String (V × List (String × V)) :=
  coordStep agents workflow inputs [("initial_input", inputs)] []

/-! ## Field sets -/

/-- The open-ended field set threaded through the workflow: an
insertion-ordered dict from string keys to values. -/
abbrev Field := List (String × Json)

/-! ## More Python string operations needed by the agents -/

/-- Python `s.split(sep)` for a non-empty literal separator: non-overlapping
matches scanned left to right, keeping empty segments. -/
def splitOnSubAux (sep : List Char) : List Char → List Char → List (List Char)
  | [], acc => [acc.reverse]
  | c :: rest, acc =>
    if sep.isPrefixOf (c :: rest) then
      acc.reverse :: splitOnSubAux sep (rest.drop (sep.length - 1)) []
    else splitOnSubAux sep rest (c :: acc)
  termination_by cs _ => cs.length
  decreasing_by
    · simp only [List.length_cons, List.length_drop]
      omega
    · simp only [List.length_cons]
      omega

def pySplitOnSub (sep : String) (s : String) : List String :=
  (splitOnSubAux sep.data s.data []).map (fun cs => ⟨cs⟩)

/-- Python `s.replace(pat, repl)` for a non-empty literal pattern. -/
def replaceSubAux (pat repl : List Char) : List Char → List Char
  | [] => []
  | c :: rest =>
    if pat.isPrefixOf (c :: rest) then
      repl ++ replaceSubAux pat repl (rest.drop (pat.length - 1))
    else c :: replaceSubAux pat repl rest
  termination_by cs => cs.length
  decreasing_by
    · simp only [List.length_cons, List.length_drop]
      omega
    · simp only [List.length_cons]
      omega

def pyReplace (pat repl s : String) : String := ⟨replaceSubAux pat.data repl.data s.data⟩

/-- Rendering `str(...)` of a Python list of strings, as interpolated into an f-string:
elements quoted with single quotes (escaping inside elements not modelled). -/
def pyShowStrList (xs : List String) : String :=
  "[" ++ pyJoin ", " (xs.map (fun t => String.singleton squote ++ t ++ String.singleton squote)) ++ "]"

/-! ## The Validate step (src/agents/validator.py)

`ValidationAgent.process` issues review prompts to the model and collects
their feedback into `validation_issues` / `improvements`, which are logged
and then dropped: the returned field set is the input with
`content_structure` rebound to the value that was read out of the input.
The model is a function from prompt to response; the feedback lists are
constructed exactly as in the source and discarded. -/

def courseValidationPrompt (topic course_title description : String) : String :=
  "\n        You are a quality assurance expert for educational content. Review this course on \"" ++ topic ++ "\" with the title \"" ++ course_title ++ "\" and description: \"" ++ description ++ "\".\n        \n        Evaluate:\n        1. Is the course title clear and accurately reflects the content?\n        2. Is the course description comprehensive and engaging?\n        3. Does the overall structure make logical sense for the topic?\n        \n        Provide your assessment and suggest specific improvements.\n        "

def lessonValidationPrompt (topic module_title lesson_title lesson_content : String) : String :=
  "\n                Review this lesson titled \"" ++ lesson_title ++ "\" from the module \"" ++ module_title ++ "\" in a course about " ++ topic ++ ".\n                \n                Lesson content:\n                " ++ pyTakeStr lesson_content 1000 ++ "... (truncated for brevity)\n                \n                Evaluate:\n                1. Content accuracy: Is the information correct and up-to-date?\n                2. Content completeness: Does it cover the topic thoroughly?\n                3. Instructional quality: Is it clear and easy to understand?\n                4. Engagement: Will it keep learners interested?\n                \n                Provide specific suggestions for improvement.\n                "

def consistencyPrompt (topic : String) (module_titles : List String) : String :=
  "\n        Review the module structure for this course on \"" ++ topic ++ "\":\n        \n        " ++ pyShowStrList module_titles ++ "\n        \n        Evaluate:\n        1. Do the modules flow logically from one to the next?\n        2. Is there any redundancy or gaps in the curriculum?\n        3. Is the difficulty progression appropriate?\n        \n        Provide feedback on the overall course structure.\n        "

/-- One entry of the per-module validation loop (over `modules[:2]`): either a
`validation_issues` string (module with no lessons) or a lesson-level
`improvements` record. -/
def validateModule (llm : String → String) (topic : String) (module : Json) :
    Sum String Json :=
  let module_title := asStr (jGetD module "title" (.str ""))
  let module_lessons := asArr (jGetD module "lessons" (.arr []))
  match module_lessons with
  | [] => .inl ("Module " ++ String.singleton squote ++ module_title ++ String.singleton squote ++ " has no lessons")
  | sample_lesson :: _ =>
    let lesson_title := asStr (jGetD sample_lesson "title" (.str ""))
    let lesson_content := asStr (jGetD sample_lesson "content" (.str ""))
    let lesson_feedback := llm (lessonValidationPrompt topic module_title lesson_title lesson_content)
    .inr (Json.obj [("type", .str "lesson_level"),
                    ("module", .str module_title),
                    ("lesson", .str lesson_title),
                    ("feedback", .str lesson_feedback)])

def validatorProcess (llm : String → String) (inputs : Field) : Field :=
  let topic := asStr (dictGetD inputs "topic" (.str ""))
  let content_structure := dictGetD inputs "content_structure" (.obj [])
  let course_title := asStr (jGetD content_structure "course_title" (.str ""))
  let description := asStr (jGetD content_structure "description" (.str ""))
  let modules := asArr (jGetD content_structure "modules" (.arr []))
  let course_feedback := llm (courseValidationPrompt topic course_title description)
  let moduleResults := (modules.take 2).map (validateModule llm topic)
  let _validation_issues := moduleResults.filterMap
    (fun r => match r with | .inl s => some s | .inr _ => none)
  let consistency_feedback := llm
    (consistencyPrompt topic (modules.map (fun m => asStr (jGetD m "title" (.str "")))))
  let _improvements :=
    [Json.obj [("type", .str "course_level"), ("feedback", .str course_feedback)]] ++
    moduleResults.filterMap (fun r => match r with | .inl _ => none | .inr j => some j) ++
    [Json.obj [("type", .str "structure_level"), ("feedback", .str consistency_feedback)]]
  dictSet inputs "content_structure" content_structure

/-! ## The Content step (src/agents/content_generator.py) -/

def contentPrompt (topic lesson_title module_title lesson_description : String) : String :=
  "\n                    Generate detailed educational content for a lesson titled \"" ++ lesson_title ++ "\" which is part of the module \"" ++ module_title ++ "\" in a course about " ++ topic ++ ".\n                    \n                    Lesson description: " ++ lesson_description ++ "\n                    \n                    Your task is to create:\n                    1. Comprehensive lesson content (at least 250 words)\n                    2. A list of 3-5 resources for further learning\n                    \n                    Format your response as:\n                    \n                    CONTENT:\n                    [Your lesson content here]\n                    \n                    RESOURCES:\n                    - [Resource 1]\n                    - [Resource 2]\n                    - [Resource 3]\n                    "

def referencesPrompt (topic : String) : String :=
  "\n            Generate 5-7 academic or professional references for a course on " ++ topic ++ ".\n            Each reference should follow standard citation format.\n            "

/-- The resources list recovered from the model response: each non-blank line
after the `RESOURCES:` marker, stripped of surrounding whitespace and leading
hyphens. -/
def parseResources (resources_text : String) : List String :=
  (splitOnChar '\n' resources_text.data).filterMap (fun line =>
    let r : String := ⟨line⟩
    if (pyStrip r).data.isEmpty then none
    else some (pyStrip (pyLstripChar '-' (pyStrip r))))

/-- One lesson of the content-generation loop. -/
def generateLesson (llm : String → String) (topic module_title : String) (lesson : Json) : Json :=
  let lesson_title := asStr (jGetD lesson "title" (.str ""))
  let lesson_description := asStr (jGetD lesson "description" (.str ""))
  let response_text := llm (contentPrompt topic lesson_title module_title lesson_description)
  let content_parts := pySplitOnSub "RESOURCES:" response_text
  let lesson_content := pyStrip (pyReplace "CONTENT:" "" (content_parts.headD ""))
  let resources :=
    if content_parts.length > 1 then
      parseResources (pyStrip (content_parts.getD 1 ""))
    else []
  Json.obj [("title", .str lesson_title),
            ("content", .str lesson_content),
            ("resources", .arr (resources.map .str))]

/-- One module of the content-generation loop. -/
def generateModule (llm : String → String) (topic : String) (module : Json) : Json :=
  let module_title := asStr (jGetD module "title" (.str ""))
  let lessons := asArr (jGetD module "lessons" (.arr []))
  Json.obj [("title", .str module_title),
            ("lessons", .arr (lessons.map (generateLesson llm topic module_title)))]

/-- The error-flagged empty course skeleton returned when the structure string
cannot be parsed. -/
def parseErrorSkeleton : Json :=
  .obj [("course_title", .str "Error in structure parsing"),
        ("description", .str "Could not generate content due to structure format issues"),
        ("modules", .arr []),
        ("references", .arr [])]

/-- Model of `ContentGenerationAgent.process`: parse the structure string with
`clean_json_string`; on `JSONDecodeError` return the input augmented with an
`error` message and the error skeleton; otherwise generate content for every
module and lesson and a references list. -/
def contentProcess (llm : String → String) (inputs : Field) : Field :=
  let topic := asStr (dictGetD inputs "topic" (.str ""))
  let structure_str := asStr (dictGetD inputs "structure" (.str ""))
  match clean_json_string structure_str with
  | .error e =>
    dictSet
      (dictSet inputs "error"
        (.str ("Failed to parse course structure JSON: " ++ strJSONDecodeError e)))
      "content_structure" parseErrorSkeleton
  | .ok structJ =>
    let course_title := asStr (jGetD structJ "title" (.str ""))
    let description := asStr (jGetD structJ "description" (.str ""))
    let modules := asArr (jGetD structJ "modules" (.arr []))
    let moduleContents := modules.map (generateModule llm topic)
    let ref_response := llm (referencesPrompt topic)
    let references := (splitOnChar '\n' (pyStrip ref_response).data).filterMap (fun line =>
      let r : String := ⟨line⟩
      if (pyStrip r).data.isEmpty then none else some (pyStrip r))
    let content_structure :=
      Json.obj [("course_title", .str course_title),
                ("description", .str description),
                ("modules", .arr moduleContents),
                ("references", .arr (references.map .str))]
    dictSet inputs "content_structure" content_structure

/-! ## The Research step (src/agents/researcher.py) -/

/-- The Python exceptions surfaced by the embedded agents. -/
inductive PyExc where
  | unboundLocal (name : String)
deriving DecidableEq

def researchPrompt (topic depth web_summaries academic_summaries : String) : String :=
  "\n        You are a thorough researcher creating educational content about " ++ topic ++ " at a " ++ depth ++ " level.\n        \n        Here are some web sources about the topic:\n        " ++ web_summaries ++ "\n        \n        Here are some academic sources about the topic:\n        " ++ academic_summaries ++ "\n        \n        Based on these sources and your knowledge, research the following aspects:\n        1. Core concepts and fundamentals of " ++ topic ++ "\n        2. Latest developments and advancements\n        3. Practical applications\n        4. Common challenges and solutions\n        5. Resources for further learning\n        \n        Provide a comprehensive research summary that could be used to create an educational course.\n        Structure your response with clear headings for each section.\n        "

/-- The summary `f"SOURCE {i+1}: {title}\n{content[:500]}..."` (and the `ACADEMIC SOURCE`
variant). -/
def mkSourceSummary (tag : String) (i : Nat) (source : Json) : String :=
  tag ++ " " ++ toString (i + 1) ++ ": " ++ asStr (jGetD source "title" (.str "")) ++
    "\n" ++ pyTakeStr (asStr (jGetD source "content" (.str ""))) 500 ++ "..."

/-- The trimmed `{"title": ..., "url": ...}` entry of `research_sources`. -/
def trimmedSource (s : Json) : Json :=
  .obj [("title", jGetD s "title" (.str "")), ("url", jGetD s "url" (.str ""))]

/-- Model of `ResearchAgent.process`.  `gather` models
`self.research_service.gather_research(topic, depth)`: either a result value
or a raised exception (`.error`).  The `try` block binds `web_sources` /
`academic_sources` only on success; the `except` handler assigns placeholder
summary strings but leaves those two names unbound, so the
`research_sources` construction in the return statement raises
`UnboundLocalError` — modelled by the `.error` result. -/
def researcherProcess (gather : String → String → Except String Json)
    (llm : String → String) (inputs : Field) : Except PyExc Field :=
  let topic := asStr (dictGetD inputs "topic" (.str ""))
  let depth := asStr (dictGetD inputs "depth" (.str "intermediate"))
  let tryResult : String × String × Option (List Json) × Option (List Json) :=
    match gather topic depth with
    | .ok research_data =>
      let web_sources := asArr (jGetD research_data "web_sources" (.arr []))
      let academic_sources := asArr (jGetD research_data "academic_sources" (.arr []))
      let web_summaries := pyJoin "\n\n"
        ((web_sources.take 3).enum.map (fun p => mkSourceSummary "SOURCE" p.1 p.2))
      let academic_summaries := pyJoin "\n\n"
        ((academic_sources.take 2).enum.map (fun p => mkSourceSummary "ACADEMIC SOURCE" p.1 p.2))
      (web_summaries, academic_summaries, some web_sources, some academic_sources)
    | .error _ =>
      ("Error retrieving web sources.", "Error retrieving academic sources.", none, none)
  let research_content := llm (researchPrompt topic depth tryResult.1 tryResult.2.1)
  match tryResult.2.2.1, tryResult.2.2.2 with
  | some web_sources, some academic_sources =>
    .ok (dictSet
      (dictSet inputs "research" (.str research_content))
      "research_sources"
      (.obj [("web", .arr (web_sources.map trimmedSource)),
             ("academic", .arr (academic_sources.map trimmedSource))]))
  | _, _ => .error (.unboundLocal "web_sources")

/-! ## Expected coordinator behaviour (for the statement of the chaining claim) -/

/-- The field set after running the workflow: each registered step's output
feeds the next (an unregistered name, excluded by the theorems' hypotheses,
is skipped). -/
def runChain {V : Type} (agents : List (String × (V → V))) (workflow : List String) (v : V) : V :=
  workflow.foldl (fun cur name =>
    match dictFind agents name with
    | some f => f cur
    | none => cur) v

/-- The per-step trace: each step's output keyed by the step's name, in
workflow order, each step fed the previous step's output. -/
def chainTrace {V : Type} (agents : List (String × (V → V))) :
    List String → V → List (String × V)
  | [], _ => []
  | name :: rest, cur =>
    let out := match dictFind agents name with
      | some f => f cur
      | none => cur
    (name, out) :: chainTrace agents rest out

/-! ## Concrete fixtures used by witnesses -/

def sampleModule : Module := ⟨"M1", "d", [], "1 week"⟩

def sampleCourse (dur : String) (ms : List Module) : Course :=
  ⟨"T", "D", "Top", "beginner", dur, ms, [], ⟨"t0"⟩, ⟨"t1"⟩, .obj []⟩

/-! ## Helper lemmas -/

theorem dictFind_dictSet_self {β : Type} (xs : List (String × β)) (k : String) (v : β) :
    dictFind (dictSet xs k v) k = some v := by
  induction xs with
  | nil => simp [dictSet, dictFind]
  | cons p rest ih =>
    obtain ⟨k', v'⟩ := p
    by_cases h : k' = k
    · simp [dictSet, dictFind, h]
    · simp [dictSet, dictFind, h, ih]

theorem dictFind_dictSet_ne {β : Type} (xs : List (String × β)) (k k2 : String) (v : β)
    (h : k2 ≠ k) : dictFind (dictSet xs k v) k2 = dictFind xs k2 := by
  induction xs with
  | nil =>
    simp only [dictSet, dictFind]
    rw [if_neg (Ne.symm h)]
  | cons p rest ih =>
    obtain ⟨k', v'⟩ := p
    by_cases hk : k' = k
    · subst hk
      simp only [dictSet, if_pos rfl, dictFind]
      rw [if_neg (Ne.symm h), if_neg (Ne.symm h)]
    · simp only [dictSet, if_neg hk, dictFind]
      by_cases hk2 : k' = k2
      · rw [if_pos hk2, if_pos hk2]
      · rw [if_neg hk2, if_neg hk2, ih]

theorem dictHas_dictSet_of_has {β : Type} (xs : List (String × β)) (k k2 : String) (v : β)
    (h : dictHas xs k2 = true) : dictHas (dictSet xs k v) k2 = true := by
  by_cases hk : k2 = k
  · subst hk
    simp [dictHas, dictFind_dictSet_self]
  · simpa [dictHas, dictFind_dictSet_ne xs k k2 v hk] using h

theorem dictSet_eq_append {β : Type} (xs : List (String × β)) (k : String) (v : β)
    (h : dictFind xs k = none) : dictSet xs k v = xs ++ [(k, v)] := by
  induction xs with
  | nil => rfl
  | cons p rest ih =>
    obtain ⟨k', v'⟩ := p
    by_cases hk : k' = k
    · simp [dictFind, hk] at h
    · simp only [dictFind, if_neg hk] at h
      simp [dictSet, if_neg hk, ih h]

theorem dictFind_append_right {β : Type} (xs ys : List (String × β)) (k : String)
    (h : dictFind xs k = none) : dictFind (xs ++ ys) k = dictFind ys k := by
  induction xs with
  | nil => rfl
  | cons p rest ih =>
    obtain ⟨k', v'⟩ := p
    by_cases hk : k' = k
    · simp [dictFind, hk] at h
    · simp only [dictFind, if_neg hk] at h
      simp [dictFind, if_neg hk, ih h]

theorem dropWhile_eq_self_of_all {p : Char → Bool} {cs : List Char}
    (h : ∀ c ∈ cs, p c = false) : cs.dropWhile p = cs := by
  cases cs with
  | nil => rfl
  | cons c rest =>
    have hc := h c (by simp)
    simp [List.dropWhile_cons, hc]

theorem pyStripChars_of_no_ws {cs : List Char} (h : ∀ c ∈ cs, isPyWs c = false) :
    pyStripChars cs = cs := by
  unfold pyStripChars
  rw [dropWhile_eq_self_of_all h,
      dropWhile_eq_self_of_all (fun c hc => h c (List.mem_reverse.mp hc)),
      List.reverse_reverse]

theorem isPyDigit_mem {c : Char} (h : isPyDigit c = true) :
    c ∈ ['0', '1', '2', '3', '4', '5', '6', '7', '8', '9'] := by
  simpa [isPyDigit] using h

theorem isPyDigit_not_ws {c : Char} (h : isPyDigit c = true) : isPyWs c = false := by
  have hm := isPyDigit_mem h
  fin_cases hm <;> rfl

theorem isPyDigit_ne_plus {c : Char} (h : isPyDigit c = true) : c ≠ '+' := by
  have hm := isPyDigit_mem h
  fin_cases hm <;> decide

theorem isPyDigit_ne_minus {c : Char} (h : isPyDigit c = true) : c ≠ '-' := by
  have hm := isPyDigit_mem h
  fin_cases hm <;> decide

theorem splitWsAux_token (tail : List Char) :
    ∀ (ds acc : List Char), (∀ c ∈ ds, isPyWs c = false) →
      (acc ≠ [] ∨ ds ≠ []) →
      splitWsAux (ds ++ ' ' :: tail) acc = (acc.reverse ++ ds) :: splitWsAux tail [] := by
  intro ds
  induction ds with
  | nil =>
    intro acc _ hne
    have hacc : acc ≠ [] := by
      rcases hne with h | h
      · exact h
      · exact absurd rfl h
    simp only [List.nil_append, splitWsAux]
    rw [if_pos (show isPyWs ' ' = true from rfl),
        if_neg (by simpa [List.isEmpty_iff] using hacc)]
    simp
  | cons d ds ih =>
    intro acc hd hne
    have hdd : isPyWs d = false := hd d (by simp)
    simp only [List.cons_append, splitWsAux, hdd, Bool.false_eq_true, if_false,
      List.append_eq]
    rw [ih (d :: acc) (fun c hc => hd c (by simp [hc])) (Or.inl (by simp))]
    simp

theorem pyIntParseChars_digits {d : Char} {ds : List Char}
    (hdig : (d :: ds).all isPyDigit = true) :
    pyIntParseChars (d :: ds) = some (digitsVal (d :: ds)) := by
  have hd : isPyDigit d = true := (List.all_eq_true.mp hdig) d (by simp)
  simp only [pyIntParseChars]
  rw [if_neg (by simpa using isPyDigit_ne_plus hd),
      if_neg (by simpa using isPyDigit_ne_minus hd),
      if_neg (by simp [hdig])]
  simp

/-- The first whitespace-delimited token of a string of the form
`"<digits> weeks"` parses to the digits' value. -/
theorem pyDurationWeeks_digits (ds : List Char) (tail : List Char)
    (hne : ds ≠ []) (hdig : ds.all isPyDigit = true) :
    pyDurationWeeks? ⟨ds ++ ' ' :: tail⟩ = some (digitsVal ds) := by
  have hall : ∀ c ∈ ds, isPyDigit c = true := fun c hc => List.all_eq_true.mp hdig c hc
  have hws : ∀ c ∈ ds, isPyWs c = false := fun c hc => isPyDigit_not_ws (hall c hc)
  unfold pyDurationWeeks? pySplitWs
  rw [show (⟨ds ++ ' ' :: tail⟩ : String).data = ds ++ ' ' :: tail from rfl]
  rw [splitWsAux_token tail ds [] hws (Or.inr hne)]
  simp only [List.reverse_nil, List.nil_append]
  unfold pyIntParse
  rw [show (⟨ds⟩ : String).data = ds from rfl]
  rw [pyStripChars_of_no_ws hws]
  cases ds with
  | nil => exact absurd rfl hne
  | cons d ds2 => exact pyIntParseChars_digits hdig

theorem pySliceTo_natCast {α : Type} (xs : List α) (n : Nat) :
    pySliceTo xs (n : Int) = xs.take n := by
  unfold pySliceTo
  rw [if_pos (by omega)]
  simp

/-- C1: for every Course whose `course_duration` has the form `"<N> weeks"`
(`N` a nonnegative decimal integer), `adjust_modules_to_duration` leaves
exactly `N` modules: the tail is truncated when there were more than `N`,
and placeholder modules titled `"Module {n}"` (1-indexed, continuing from
the existing count) with description `"Content to be developed"` are
appended when there were fewer. -/
theorem C1_adjust_modules_to_duration (c : Course) (ds : List Char)
    (hne : ds ≠ []) (hdig : ds.all isPyDigit = true)
    (hdur : c.course_duration = ⟨ds ++ ' ' :: "weeks".data⟩) :
    c.adjust_modules_to_duration =
      { c with modules :=
          (if digitsVal ds ≤ c.modules.length then c.modules.take (digitsVal ds)
           else c.modules ++
             (List.range' c.modules.length (digitsVal ds - c.modules.length)).map
               placeholderModule) } ∧
    (c.adjust_modules_to_duration).modules.length = digitsVal ds := by
  have hweeks : c.get_duration_in_weeks = (digitsVal ds : Int) := by
    unfold Course.get_duration_in_weeks
    rw [hdur, pyDurationWeeks_digits ds _ hne hdig]
    rfl
  simp only [Course.adjust_modules_to_duration]
  rw [hweeks]
  rcases Nat.lt_trichotomy (digitsVal ds) c.modules.length with hlt | heq | hgt
  · rw [if_pos (by exact_mod_cast hlt)]
    rw [pySliceTo_natCast]
    refine ⟨?_, ?_⟩
    · rw [if_pos (Nat.le_of_lt hlt)]
    · simp only [List.length_take]
      omega
  · rw [if_neg (by omega), if_neg (by omega)]
    refine ⟨?_, ?_⟩
    · rw [if_pos (Nat.le_of_eq heq), heq, List.take_length]
    · exact heq.symm
  · rw [if_neg (by omega), if_pos (by exact_mod_cast hgt)]
    rw [show ((digitsVal ds : Int)).toNat = digitsVal ds from rfl]
    refine ⟨?_, ?_⟩
    · rw [if_neg (by omega)]
    · simp only [List.length_append, List.length_map, List.length_range']
      omega

/-- Witness for C1: a course with duration "3 weeks" and one module is padded
to exactly three modules with the two placeholders. -/
theorem C1_adjust_modules_to_duration_witness :
    (['3'] : List Char) ≠ [] ∧ ['3'].all isPyDigit = true ∧
    (sampleCourse "3 weeks" [sampleModule]).course_duration =
      ⟨['3'] ++ ' ' :: "weeks".data⟩ ∧
    (sampleCourse "3 weeks" [sampleModule]).adjust_modules_to_duration =
      sampleCourse "3 weeks"
        [sampleModule,
         ⟨"Module 2", "Content to be developed", [], "1 week"⟩,
         ⟨"Module 3", "Content to be developed", [], "1 week"⟩] :=
  ⟨by decide, by decide, by decide,
    (C1_adjust_modules_to_duration (sampleCourse "3 weeks" [sampleModule]) ['3']
      (by decide) (by decide) (by decide)).1⟩

/-- C10: when `course_duration` does not begin with an integer token,
`get_duration_in_weeks` falls back to the current module count, and
`adjust_modules_to_duration` is a no-op. -/
theorem C10_adjust_modules_noop (c : Course)
    (h : pyDurationWeeks? c.course_duration = none) :
    c.get_duration_in_weeks = (c.modules.length : Int) ∧
    c.adjust_modules_to_duration = c := by
  have hw : c.get_duration_in_weeks = (c.modules.length : Int) := by
    unfold Course.get_duration_in_weeks
    rw [h]
    rfl
  refine ⟨hw, ?_⟩
  simp only [Course.adjust_modules_to_duration]
  rw [hw]
  rw [if_neg (by omega), if_neg (by omega)]

/-- Witness for C10: `"six weeks"` has no integer first token, so the course
is left untouched. -/
theorem C10_adjust_modules_noop_witness :
    pyDurationWeeks? "six weeks" = none ∧
    (sampleCourse "six weeks" [sampleModule]).adjust_modules_to_duration =
      sampleCourse "six weeks" [sampleModule] :=
  ⟨rfl, (C10_adjust_modules_noop (sampleCourse "six weeks" [sampleModule]) rfl).2⟩

/-- C5: Text Repair on `"```json\n{'a': 1}\n```"` returns the object `{"a": 1}`:
the fence markers are stripped, the direct parse fails, and the single-quote
repair pass yields valid JSON. -/
theorem C5_text_repair_fenced_single_quotes :
    clean_json_string "\x60\x60\x60json\n\x7b\x27a\x27: 1\x7d\n\x60\x60\x60" =
      .ok (Json.obj [("a", Json.num 1)]) ∧
    pyStrip ⟨stripCodeFences ("\x60\x60\x60json\n\x7b\x27a\x27: 1\x7d\n\x60\x60\x60" : String).data⟩ =
      "\x7b\x27a\x27: 1\x7d" ∧
    jsonLoads "\x7b\x27a\x27: 1\x7d" = none ∧
    jsonLoads ⟨quoteFix ("\x7b\x27a\x27: 1\x7d" : String).data⟩ =
      some (Json.obj [("a", Json.num 1)]) :=
  ⟨rfl, rfl, rfl, rfl⟩

/-- C3 (amended): when all three repair attempts fail, `clean_json_string`
fails with the structured parse error (never any other outcome), and the
error carries the fence-stripped, whitespace-trimmed input text — not
necessarily the original input. -/
theorem C3_all_attempts_fail_structured_error (s : String)
    (h1 : jsonLoads (pyStrip ⟨stripCodeFences s.data⟩) = none)
    (h2 : jsonLoads ⟨quoteFix (pyStrip ⟨stripCodeFences s.data⟩).data⟩ = none)
    (h3 : ∀ span, braceSpan (pyStrip ⟨stripCodeFences s.data⟩).data = some span →
      jsonLoads ⟨span⟩ = none) :
    clean_json_string s =
      .error ⟨"Could not parse JSON after cleaning", pyStrip ⟨stripCodeFences s.data⟩, 0⟩ := by
  simp only [clean_json_string, h1, h2]
  cases hb : braceSpan (pyStrip ⟨stripCodeFences s.data⟩).data with
  | none => simp [hb]
  | some span => simp [hb, h3 span hb]

/-- Witness for C3's amended theorem at the input `"not json"`. -/
theorem C3_all_attempts_fail_structured_error_witness :
    jsonLoads (pyStrip ⟨stripCodeFences ("not json" : String).data⟩) = none ∧
    jsonLoads ⟨quoteFix (pyStrip ⟨stripCodeFences ("not json" : String).data⟩).data⟩ = none ∧
    braceSpan (pyStrip ⟨stripCodeFences ("not json" : String).data⟩).data = none ∧
    clean_json_string "not json" =
      .error ⟨"Could not parse JSON after cleaning", "not json", 0⟩ :=
  ⟨rfl, rfl, rfl,
    C3_all_attempts_fail_structured_error "not json" rfl rfl
      (fun span h => by
        rw [show braceSpan (pyStrip ⟨stripCodeFences ("not json" : String).data⟩).data = none
            from rfl] at h
        exact Option.noConfusion h)⟩

/-- Counterexample for C3 as stated: for a fenced input the raised error
carries the stripped text, which differs from the original input. -/
theorem C3_counterexample_error_not_original :
    clean_json_string "\x60\x60\x60json\n\x27\n\x60\x60\x60" =
      .error ⟨"Could not parse JSON after cleaning", "\x27", 0⟩ ∧
    ("\x27" : String) ≠ "\x60\x60\x60json\n\x27\n\x60\x60\x60" :=
  ⟨rfl, by decide⟩

/-- C9: the Validate step returns the input field set with
`content_structure` rebound to the value read from the input; the computed
feedback never reaches the result (the output is independent of the model),
and every other key is returned unchanged. -/
theorem C9_validate_no_op (llm llm2 : String → String) (inputs : Field)
    (k : String) (hk : k ≠ "content_structure") :
    validatorProcess llm inputs =
      dictSet inputs "content_structure" (dictGetD inputs "content_structure" (.obj [])) ∧
    validatorProcess llm inputs = validatorProcess llm2 inputs ∧
    dictFind (validatorProcess llm inputs) k = dictFind inputs k := by
  refine ⟨rfl, rfl, ?_⟩
  show dictFind (dictSet inputs "content_structure"
      (dictGetD inputs "content_structure" (.obj []))) k = dictFind inputs k
  exact dictFind_dictSet_ne _ _ _ _ hk

/-- Witness for C9 at a one-key field set. -/
theorem C9_validate_no_op_witness :
    ("topic" : String) ≠ "content_structure" ∧
    (validatorProcess (fun _ => "") [("topic", Json.str "t")] =
        dictSet [("topic", Json.str "t")] "content_structure"
          (dictGetD [("topic", Json.str "t")] "content_structure" (.obj [])) ∧
      validatorProcess (fun _ => "") [("topic", Json.str "t")] =
        validatorProcess (fun _ => "x") [("topic", Json.str "t")] ∧
      dictFind (validatorProcess (fun _ => "") [("topic", Json.str "t")]) "topic" =
        dictFind [("topic", Json.str "t")] "topic") :=
  ⟨by decide,
    C9_validate_no_op (fun _ => "") (fun _ => "x") [("topic", Json.str "t")] "topic" (by decide)⟩

/-- C6: when the structure string cannot be parsed, the Content step does not
raise: it returns the input augmented with an `error` message and an
error-flagged skeleton whose modules list is empty and whose course title is
the non-empty string `"Error in structure parsing"`, preserving all input
keys. -/
theorem C6_content_parse_failure (llm : String → String) (inputs : Field)
    (e : JSONDecodeError)
    (h : clean_json_string (asStr (dictGetD inputs "structure" (.str ""))) = .error e) :
    contentProcess llm inputs =
      dictSet (dictSet inputs "error"
          (.str ("Failed to parse course structure JSON: " ++ strJSONDecodeError e)))
        "content_structure" parseErrorSkeleton ∧
    dictFind (contentProcess llm inputs) "content_structure" = some parseErrorSkeleton ∧
    dictFind (contentProcess llm inputs) "error" =
      some (.str ("Failed to parse course structure JSON: " ++ strJSONDecodeError e)) ∧
    jGet parseErrorSkeleton "modules" = some (.arr []) ∧
    jGet parseErrorSkeleton "course_title" = some (.str "Error in structure parsing") ∧
    ("Error in structure parsing" : String) ≠ "" ∧
    (∀ k, dictHas inputs k = true → dictHas (contentProcess llm inputs) k = true) := by
  have hmain : contentProcess llm inputs =
      dictSet (dictSet inputs "error"
          (.str ("Failed to parse course structure JSON: " ++ strJSONDecodeError e)))
        "content_structure" parseErrorSkeleton := by
    simp only [contentProcess]
    rw [h]
  refine ⟨hmain, ?_, ?_, rfl, rfl, by decide, ?_⟩
  · rw [hmain, dictFind_dictSet_self]
  · rw [hmain, dictFind_dictSet_ne _ _ _ _ (by decide), dictFind_dictSet_self]
  · intro k hk
    rw [hmain]
    exact dictHas_dictSet_of_has _ _ _ _ (dictHas_dictSet_of_has _ _ _ _ hk)

/-- Witness for C6 at the unparseable structure string `"not json"`. -/
theorem C6_content_parse_failure_witness :
    clean_json_string
        (asStr (dictGetD [("structure", Json.str "not json"), ("topic", Json.str "T")]
          "structure" (.str ""))) =
      .error ⟨"Could not parse JSON after cleaning", "not json", 0⟩ ∧
    contentProcess (fun _ => "") [("structure", Json.str "not json"), ("topic", Json.str "T")] =
      [("structure", Json.str "not json"), ("topic", Json.str "T"),
       ("error", Json.str "Failed to parse course structure JSON: Could not parse JSON after cleaning: line 1 column 1 (char 0)"),
       ("content_structure", parseErrorSkeleton)] :=
  ⟨rfl,
    (C6_content_parse_failure (fun _ => "")
      [("structure", Json.str "not json"), ("topic", Json.str "T")]
      ⟨"Could not parse JSON after cleaning", "not json", 0⟩ rfl).1⟩

/-- C7: contrary to the specified recovery behaviour, when the Research
Gateway raises, `ResearchAgent.process` itself raises: the `except` handler
substitutes placeholder summaries but leaves `web_sources` unbound, and the
`research_sources` construction in the return statement hits
`UnboundLocalError`. -/
theorem C7_research_gateway_failure_raises (gather : String → String → Except String Json)
    (llm : String → String) (inputs : Field) (err : String)
    (h : gather (asStr (dictGetD inputs "topic" (.str "")))
          (asStr (dictGetD inputs "depth" (.str "intermediate"))) = .error err) :
    researcherProcess gather llm inputs = .error (.unboundLocal "web_sources") := by
  simp only [researcherProcess]
  rw [h]

/-- Witness for C7: a gateway that always raises. -/
theorem C7_research_gateway_failure_raises_witness :
    ((fun _ _ => (Except.error "boom" : Except String Json)) : String → String → Except String Json)
        (asStr (dictGetD [("topic", Json.str "x")] "topic" (.str "")))
        (asStr (dictGetD [("topic", Json.str "x")] "depth" (.str "intermediate"))) =
      .error "boom" ∧
    researcherProcess (fun _ _ => .error "boom") (fun _ => "") [("topic", Json.str "x")] =
      .error (.unboundLocal "web_sources") :=
  ⟨rfl,
    C7_research_gateway_failure_raises (fun _ _ => .error "boom") (fun _ => "")
      [("topic", Json.str "x")] "boom" rfl⟩

theorem coordStep_unregistered {V : Type} (agents : List (String × (V → V)))
    (bad : String) (rest : List String) (hbad : dictFind agents bad = none) :
    ∀ (pre : List String) (cur : V) (results : List (String × V)) (log : List String),
      (∀ name ∈ pre, (dictFind agents name).isSome = true) →
      coordStep agents (pre ++ bad :: rest) cur results log =
        (log ++ pre, .error ("Agent " ++ bad ++ " not found in registered agents")) := by
  intro pre
  induction pre with
  | nil =>
    intro cur results log _
    simp only [List.nil_append, coordStep, hbad]
    simp
  | cons name pre ih =>
    intro cur results log hreg
    obtain ⟨f, hf⟩ := Option.isSome_iff_exists.mp (hreg name (by simp))
    simp only [List.cons_append, coordStep, hf, List.append_eq]
    rw [ih (f cur) (dictSet results name (f cur)) (log ++ [name])
        (fun n hn => hreg n (by simp [hn]))]
    simp

/-- C2 (amended): an unregistered name in the workflow aborts the run with the
configuration error when it is reached; exactly the registered steps before it
were invoked (so no step at all when the unregistered name comes first), and
steps at or after it are never invoked. -/
theorem C2_unregistered_step_aborts (V : Type) (agents : List (String × (V → V)))
    (pre rest : List String) (bad : String) (inputs : V)
    (hpre : ∀ name ∈ pre, (dictFind agents name).isSome = true)
    (hbad : dictFind agents bad = none) :
    coordinatorProcess agents (pre ++ bad :: rest) inputs =
      (pre, .error ("Agent " ++ bad ++ " not found in registered agents")) := by
  unfold coordinatorProcess
  rw [coordStep_unregistered agents bad rest hbad pre inputs _ _ hpre]
  simp

/-- Counterexample for C2 as stated: with workflow `["s1", "missing"]` the
run does fail, but the registered step `"s1"` has already been invoked —
the failure is not "before invoking any step" when the unregistered name is
not first. -/
theorem C2_counterexample_prior_step_invoked :
    dictFind [("s1", fun (v : Field) => dictSet v "x" (Json.num 1))] "missing" = none ∧
    (coordinatorProcess [("s1", fun (v : Field) => dictSet v "x" (Json.num 1))]
        ["s1", "missing"] ([] : Field)).2 =
      .error "Agent missing not found in registered agents" ∧
    (coordinatorProcess [("s1", fun (v : Field) => dictSet v "x" (Json.num 1))]
        ["s1", "missing"] ([] : Field)).1 = ["s1"] ∧
    (["s1"] : List String) ≠ [] :=
  ⟨rfl, rfl, rfl, by decide⟩

/-- Witness for C2's amended theorem: invoked-step log is exactly the steps
before the unregistered name. -/
theorem C2_unregistered_step_aborts_witness :
    (dictFind [("s1", fun (v : Field) => dictSet v "x" (Json.num 1))] "s1").isSome = true ∧
    dictFind [("s1", fun (v : Field) => dictSet v "x" (Json.num 1))] "missing" = none ∧
    coordinatorProcess [("s1", fun (v : Field) => dictSet v "x" (Json.num 1))]
        (["s1"] ++ "missing" :: []) ([] : Field) =
      (["s1"], .error ("Agent " ++ "missing" ++ " not found in registered agents")) :=
  ⟨by decide, rfl,
    C2_unregistered_step_aborts Field
      [("s1", fun (v : Field) => dictSet v "x" (Json.num 1))]
      ["s1"] [] "missing" [] (by decide) rfl⟩

theorem coordStep_registered {V : Type} (agents : List (String × (V → V))) :
    ∀ (workflow : List String) (cur : V) (results : List (String × V)) (log : List String),
      (∀ name ∈ workflow, (dictFind agents name).isSome = true) →
      (∀ name ∈ workflow, dictFind results name = none) →
      workflow.Nodup →
      coordStep agents workflow cur results log =
        (log ++ workflow,
         .ok (runChain agents workflow cur, results ++ chainTrace agents workflow cur)) := by
  intro workflow
  induction workflow with
  | nil =>
    intro cur results log _ _ _
    simp [coordStep, runChain, chainTrace]
  | cons name rest ih =>
    intro cur results log hreg hres hnd
    obtain ⟨f, hf⟩ := Option.isSome_iff_exists.mp (hreg name (by simp))
    have hname : name ∉ rest := (List.nodup_cons.mp hnd).1
    have hres2 : ∀ n ∈ rest, dictFind (results ++ [(name, f cur)]) n = none := by
      intro n hn
      have hne : name ≠ n := fun hh => hname (hh ▸ hn)
      rw [dictFind_append_right _ _ _ (hres n (by simp [hn]))]
      simp [dictFind, hne]
    simp only [coordStep, hf, List.append_eq]
    rw [dictSet_eq_append results name (f cur) (hres name (by simp))]
    rw [ih (f cur) (results ++ [(name, f cur)]) (log ++ [name])
        (fun n hn => hreg n (by simp [hn])) hres2 (List.nodup_cons.mp hnd).2]
    simp only [runChain, chainTrace, List.foldl_cons, hf, List.append_assoc,
      List.singleton_append]

/-- C4: for a workflow of registered, distinct step names (none of them named
like the reserved trace key), the executor invokes each step in order, feeds
each the previous step's output, and returns the final field set together
with the per-step trace keyed by step name alongside the original input. -/
theorem C4_coordinator_chains_steps (V : Type) (agents : List (String × (V → V)))
    (workflow : List String) (inputs : V)
    (hreg : ∀ name ∈ workflow, (dictFind agents name).isSome = true)
    (hnodup : workflow.Nodup)
    (hinit : "initial_input" ∉ workflow) :
    coordinatorProcess agents workflow inputs =
      (workflow,
       .ok (runChain agents workflow inputs,
            ("initial_input", inputs) :: chainTrace agents workflow inputs)) := by
  have hres : ∀ name ∈ workflow, dictFind [("initial_input", inputs)] name = none := by
    intro n hn
    have hne : ("initial_input" : String) ≠ n := fun hh => hinit (hh ▸ hn)
    simp [dictFind, hne]
  unfold coordinatorProcess
  rw [coordStep_registered agents workflow inputs [("initial_input", inputs)] [] hreg hres hnodup]
  simp

/-- Witness for C4: the two-step example from the specification. -/
theorem C4_coordinator_chains_steps_witness :
    (dictFind [("s1", fun (_ : Field) => [("x", Json.num 1)]),
               ("s2", fun (v : Field) => dictSet v "y" (Json.num 2))] "s1").isSome = true ∧
    (dictFind [("s1", fun (_ : Field) => [("x", Json.num 1)]),
               ("s2", fun (v : Field) => dictSet v "y" (Json.num 2))] "s2").isSome = true ∧
    (["s1", "s2"] : List String).Nodup ∧
    ("initial_input" : String) ∉ (["s1", "s2"] : List String) ∧
    coordinatorProcess
        [("s1", fun (_ : Field) => [("x", Json.num 1)]),
         ("s2", fun (v : Field) => dictSet v "y" (Json.num 2))]
        ["s1", "s2"] ([] : Field) =
      (["s1", "s2"],
       .ok ([("x", Json.num 1), ("y", Json.num 2)],
            [("initial_input", []),
             ("s1", [("x", Json.num 1)]),
             ("s2", [("x", Json.num 1), ("y", Json.num 2)])])) :=
  ⟨by decide, by decide, by decide, by decide,
    C4_coordinator_chains_steps Field
      [("s1", fun (_ : Field) => [("x", Json.num 1)]),
       ("s2", fun (v : Field) => dictSet v "y" (Json.num 2))]
      ["s1", "s2"] [] (by decide) (by decide) (by decide)⟩

theorem lesson_round_trip (l : Lesson) : Lesson.from_dict (Lesson.to_dict l) = l := by
  obtain ⟨t, d, c, rs⟩ := l
  simp only [Lesson.to_dict, Lesson.from_dict]
  congr 1
  show (rs.map Json.str).map asStr = rs
  rw [List.map_map]
  exact (List.map_congr_left (fun s _ => rfl)).trans (List.map_id rs)

theorem module_round_trip (m : Module) : Module.from_dict (Module.to_dict m) = m := by
  obtain ⟨t, d, ls, dur⟩ := m
  simp only [Module.to_dict, Module.from_dict]
  congr 1
  show (ls.map Lesson.to_dict).map Lesson.from_dict = ls
  rw [List.map_map]
  exact (List.map_congr_left (fun l _ => lesson_round_trip l)).trans (List.map_id ls)

/-- C8: serializing a Course with `to_dict` and reconstructing it with
`from_dict` reproduces the course exactly — every scalar field, every module
and lesson field, the references, the timestamps (the isoformat string
parses back to the same instant) and the validation blob. -/
theorem C8_course_round_trip (c : Course) (now : PyDateTime) :
    Course.from_dict now (Course.to_dict c) = c := by
  obtain ⟨t, d, tp, dp, dur, ms, refs, ca, ua, vr⟩ := c
  obtain ⟨cai⟩ := ca
  obtain ⟨uai⟩ := ua
  simp only [Course.to_dict, Course.from_dict]
  congr 1
  · show (ms.map Module.to_dict).map Module.from_dict = ms
    rw [List.map_map]
    exact (List.map_congr_left (fun m _ => module_round_trip m)).trans (List.map_id ms)
  · show (refs.map Json.str).map asStr = refs
    rw [List.map_map]
    exact (List.map_congr_left (fun s _ => rfl)).trans (List.map_id refs)
